import Mathlib

/-!
# bob.core: complex casts and the logging test module

A shallow embedding of `bob/core/cpp/cast.cpp` (the `std::complex`
specialisations of `bob::core::cast`) and of `bob/core/test.cpp` (the entry
points `log_message`, `log_message_mt` and `output_disable`), followed by the
theorems that settle the claims C1 to C10 about them.
-/

namespace bob.core

/-! ## Part 1: `cast.cpp` -/

/-- The scalar kinds listed by `COMPLEX_TO_REGULAR_FULL`, in the order of the macro. -/
inductive Reg
  | bool | int8_t | int16_t | int32_t | int64_t
  | uint8_t | uint16_t | uint32_t | uint64_t
  | float | double | long_double
  deriving DecidableEq, Repr

/-- The three floating widths over which `std::complex` is instantiated in `cast.cpp`. -/
inductive Flt
  | float | double | long_double
  deriving DecidableEq, Repr

/-- The scalar kind of the components of `std::complex<F>`. -/
def Flt.reg : Flt → Reg
  | .float => .float
  | .double => .double
  | .long_double => .long_double

/-- The language's scalar `static_cast`, taken as a parameter: `Val k` is the set of
values of kind `k`, `conv src dst` is `static_cast<dst>` applied to a value of kind
`src` (rounding, truncation and narrowing are whatever the platform does), and a
conversion of a kind to itself leaves the value as it is. -/
structure StaticCast (Val : Reg → Type) where
  conv : (src dst : Reg) → Val src → Val dst
  conv_self : ∀ (k : Reg) (x : Val k), conv k k x = x

/-- The class template `std::complex<T>`: a pair of components of the same kind. -/
structure complex (α : Type) where
  real : α
  imag : α
  deriving DecidableEq, Repr

/-- The macro `COMPLEX_TO_REGULAR(COMP, REG)`, i.e. `bob::core::cast<REG, COMP>`:
`return static_cast<REG>(in.real());`. -/
def COMPLEX_TO_REGULAR {Val : Reg → Type} (sc : StaticCast Val) (COMP : Flt) (REG : Reg)
    (x : complex (Val COMP.reg)) : Val REG :=
  sc.conv COMP.reg REG x.real

/-- The converting constructor of `std::complex<TO>` from a `std::complex<FROM>` of
another width: each component is initialised from the matching component. -/
def complex.convert {Val : Reg → Type} (sc : StaticCast Val) (FROM TO : Flt)
    (z : complex (Val FROM.reg)) : complex (Val TO.reg) :=
  { real := sc.conv FROM.reg TO.reg z.real, imag := sc.conv FROM.reg TO.reg z.imag }

/-- The macro `COMPLEX_TO_COMPLEX(FROM, TO)`, i.e. `bob::core::cast<TO, FROM>`:
`return static_cast<TO>(in);`, one case per instantiation in the file. On equal
kinds the `static_cast` is the copy constructor, on different kinds it is the
converting constructor. -/
def COMPLEX_TO_COMPLEX {Val : Reg → Type} (sc : StaticCast Val) :
    (FROM TO : Flt) → complex (Val FROM.reg) → complex (Val TO.reg)
  | .float, .float, z => z
  | .float, .double, z => complex.convert sc .float .double z
  | .float, .long_double, z => complex.convert sc .float .long_double z
  | .double, .float, z => complex.convert sc .double .float z
  | .double, .double, z => z
  | .double, .long_double, z => complex.convert sc .double .long_double z
  | .long_double, .float, z => complex.convert sc .long_double .float z
  | .long_double, .double, z => complex.convert sc .long_double .double z
  | .long_double, .long_double, z => z

/-- Two's-complement wrap of an integer to `w` bits, read as signed. -/
def wrapSigned (w : Nat) (x : Int) : Int :=
  (x + 2 ^ (w - 1)) % 2 ^ w - 2 ^ (w - 1)

/-- An integer-valued instance of the conversion table, used to run the casts on
concrete inputs: every kind holds integers, a conversion to `bool` tests for
non-zero, a conversion to an integer kind wraps to its width, and the floating
kinds hold the integer unchanged. -/
def intCast : StaticCast (fun _ => Int) where
  conv src dst x :=
    if src = dst then x else
    match dst with
    | .bool => if x = 0 then 0 else 1
    | .int8_t => wrapSigned 8 x
    | .int16_t => wrapSigned 16 x
    | .int32_t => wrapSigned 32 x
    | .int64_t => wrapSigned 64 x
    | .uint8_t => x % 2 ^ 8
    | .uint16_t => x % 2 ^ 16
    | .uint32_t => x % 2 ^ 32
    | .uint64_t => x % 2 ^ 64
    | .float => x
    | .double => x
    | .long_double => x
  conv_self := by intro k x; simp

/-! ## Part 2: the logging sink that `test.cpp` drives

The header `bob.core/logging.h` and its implementation are not among the sources;
what `test.cpp` uses of them is modelled here from the specification. -/

/-- Modelled from the spec: the enumeration `bob::core::LOG_LEVELS` of
`bob.core/logging.h`, which is not among the sources. The spec gives the threshold
values `DEBUG`, `INFO`, `WARN`, `ERROR` and the sentinel `DISABLE`. -/
inductive LOG_LEVELS
  | DEBUG | INFO | WARN | ERROR | DISABLE
  deriving DecidableEq, Repr

/-- Modelled from the spec: the total order of `logging.h` on the levels,
`DEBUG < INFO < WARN < ERROR`, with `DISABLE` above all four. -/
def LOG_LEVELS.rank : LOG_LEVELS → Nat
  | .DEBUG => 0
  | .INFO => 1
  | .WARN => 2
  | .ERROR => 3
  | .DISABLE => 4

/-- The four streams `bob::core::debug`, `info`, `warn` and `error` that `test.cpp`
writes to. -/
inductive Channel
  | debug | info | warn | error
  deriving DecidableEq, Repr

/-- Modelled from the spec: the fixed severity of each channel of `logging.h`. -/
def Channel.severity : Channel → LOG_LEVELS
  | .debug => .DEBUG
  | .info => .INFO
  | .warn => .WARN
  | .error => .ERROR

/-- Modelled from the spec: the activity rule of the sink of `logging.h`. A channel is
active iff its own severity is at least the current threshold and the threshold is
not `DISABLE`. -/
def Channel.active (c : Channel) (threshold : LOG_LEVELS) : Bool :=
  decide (threshold.rank ≤ c.severity.rank) && (threshold != .DISABLE)

/-- The two standard streams whose buffers `output_disable` swaps. -/
inductive StdStream
  | cout | cerr
  deriving DecidableEq, Repr

/-- Modelled from the spec: the default device of each channel in `logging.h`. The
debug and info channels forward to standard output, the warn and error channels to
standard error (the binding the literal scenarios of the spec and the expected
texts of `output_disable` rest on). -/
def Channel.stream : Channel → StdStream
  | .debug => .cout
  | .info => .cout
  | .warn => .cerr
  | .error => .cerr

/-- A stream buffer (`std::streambuf`): one that exists outside `output_disable`,
or the buffer of one of its two local `std::stringstream` objects `out` and `err`. -/
inductive StreamBuf
  | external (id : Nat)
  | out
  | err
  deriving DecidableEq, Repr

/-- The process state that `test.cpp` reads and writes: the buffer installed in
`std::cout` and in `std::cerr`, the text held by every buffer, the process-wide
threshold, and (as a record of what happened) every text sent to a channel, in
order, whether or not the channel forwarded it. -/
structure World where
  cout : StreamBuf
  cerr : StreamBuf
  text : StreamBuf → String
  level : LOG_LEVELS
  sent : List (Channel × String)

/-- The call `stream.rdbuf()` on a standard stream. -/
def World.rdbuf (w : World) : StdStream → StreamBuf
  | .cout => w.cout
  | .cerr => w.cerr

/-- The device a channel currently forwards to. -/
def World.device (w : World) (c : Channel) : StreamBuf :=
  w.rdbuf c.stream

/-- The call `ss.str(s)` on the string stream that owns buffer `b`: its text
becomes `s`. -/
def World.str (w : World) (b : StreamBuf) (s : String) : World :=
  { w with text := fun b' => if b' = b then s else w.text b' }

/-- Modelled from the spec: `bob::core::log_level(level)` of `logging.h`, the spec's
`set_level`. It sets the process-wide threshold and does nothing else. -/
def log_level (level : LOG_LEVELS) (w : World) : World :=
  { w with level := level }

/-- Modelled from the spec: the statement `channel << message << std::endl` on a
stream of `logging.h`, the spec's `write(channel, message)`. The message followed
by a line terminator is appended to the channel's device iff the channel is active;
otherwise the message is dropped. -/
def write (c : Channel) (message : String) (w : World) : World :=
  let w1 := { w with sent := w.sent ++ [(c, message ++ "\n")] }
  if c.active w1.level then
    w1.str (w1.device c) (w1.text (w1.device c) ++ (message ++ "\n"))
  else w1

/-- Modelled from the spec: the macro `PYTHON_LOGGING_DEBUG` of `logging.h`, which is
not among the sources. The spec's log line is the bare message, which is the code
with the debugging instrumentation compiled out. -/
def PYTHON_LOGGING_DEBUG : Nat := 0

/-! ## Part 3: `test.cpp` -/

/-- The struct `message_info_t`; the stream pointer `s` is the channel it points to. -/
structure message_info_t where
  s : Channel
  message : String
  exit : Bool
  ntimes : Nat
  thread_id : Nat
  deriving DecidableEq, Repr

/-- How a run of `log_message_inner` ends: `return 0`, or `pthread_exit(0)`, which
ends the thread that runs it. -/
inductive ThreadEnd
  | returned
  | exited
  deriving DecidableEq, Repr

/-- The text that iteration `i` of the loop of `log_message_inner` puts on the stream
before `std::endl`: the message, followed by the thread and iteration tag when
`PYTHON_LOGGING_DEBUG != 0`. -/
def log_message_text (mi : message_info_t) (i : Nat) : String :=
  if PYTHON_LOGGING_DEBUG ≠ 0 then
    mi.message ++ " (thread " ++ toString mi.thread_id ++ "; iteration " ++ toString i ++ ")"
  else mi.message

/-- The loop `for (unsigned int i=0; i<(mi->ntimes); ++i)` of `log_message_inner`,
entered at counter `i` with `remaining = ntimes - i` iterations left. The
`flush()` after `std::endl` finds nothing left to flush. -/
def log_message_loop (mi : message_info_t) : (remaining i : Nat) → World → World
  | 0, _, w => w
  | remaining + 1, i, w =>
    log_message_loop mi remaining (i + 1) (write mi.s (log_message_text mi i) w)

/-- The function `log_message_inner`: the write loop, then `pthread_exit(0)` when the
exit flag is set and `return 0` otherwise. The traces on `static_log` (compiled
only when `PYTHON_LOGGING_DEBUG != 0`) are left out. -/
def log_message_inner (mi : message_info_t) (w : World) : ThreadEnd × World :=
  let w1 := log_message_loop mi mi.ntimes 0 w
  if mi.exit then (.exited, w1) else (.returned, w1)

/-- The C library function `strncmp` on NUL-terminated strings, given as the
characters before the terminator: at most `n` positions are compared, the first
difference decides, and a NUL on both sides ends the comparison. -/
def strncmp : List Char → List Char → Nat → Int
  | _, _, 0 => 0
  | s1, s2, n + 1 =>
    let c1 := s1.headD (Char.ofNat 0)
    let c2 := s2.headD (Char.ofNat 0)
    if c1 ≠ c2 then (c1.toNat : Int) - (c2.toNat : Int)
    else if c1 = Char.ofNat 0 then 0
    else strncmp s1.tail s2.tail n

/-- What a Python-facing entry point hands back: `None`, a raised `ValueError` with
its message, or nothing at all because the calling thread was ended. -/
inductive PyReturn
  | None
  | ValueError (msg : String)
  | thread_ended
  deriving DecidableEq, Repr

/-- The `if`/`else if` chain of `log_message` (lines 92 to 101) that picks the stream
pointer `s`; `none` is the final `else` branch. -/
def log_message_stream (stream : String) : Option Channel :=
  if strncmp stream.data "debug".data 5 = 0 then some .debug
  else if strncmp stream.data "info".data 4 = 0 then some .info
  else if strncmp stream.data "warn".data 4 = 0 then some .warn
  else if strncmp stream.data "error".data 5 = 0 then some .error
  else if strncmp stream.data "fatal".data 5 = 0 then some .error
  else none

/-- The entry point `log_message(ntimes, stream, message)` after argument parsing
(`ntimes` is the parsed `unsigned int`). -/
def log_message (ntimes : Nat) (stream message : String) (w : World) : PyReturn × World :=
  match log_message_stream stream with
  | none =>
    (.ValueError ("parameter `stream' must be one of 'debug', 'info', 'warn', 'error' or 'fatal' (synomym for 'error'), not '" ++ stream ++ "'"), w)
  | some s =>
    let mi : message_info_t :=
      { s := s, message := message, exit := false, ntimes := ntimes, thread_id := 0 }
    match log_message_inner mi w with
    | (.returned, w1) => (.None, w1)
    | (.exited, w1) => (.thread_ended, w1)

/-- The `if`/`else if` chain of `log_message_mt` (lines 143 to 151). -/
def log_message_mt_stream (stream : String) : Option Channel :=
  if strncmp stream.data "debug".data 5 = 0 then some .debug
  else if strncmp stream.data "info".data 4 = 0 then some .info
  else if strncmp stream.data "warn".data 4 = 0 then some .warn
  else if strncmp stream.data "error".data 5 = 0 then some .error
  else none

/-- The loop of `log_message_mt` that fills `infos[i]` for `i` from `i` up to
`nthreads`, with `remaining = nthreads - i`. -/
def log_message_mt_infos (s : Channel) (message : String) (ntimes : Nat) :
    (remaining i : Nat) → List message_info_t
  | 0, _ => []
  | remaining + 1, i =>
    { s := s, message := message, exit := true, ntimes := ntimes, thread_id := i + 1 }
      :: log_message_mt_infos s message ntimes remaining (i + 1)

/-- The sequential part of the entry point `log_message_mt(nthreads, ntimes, stream,
message)`: the check of the stream name, and the arguments of the threads handed to
`pthread_create`, one per thread in launch order. A rejected name gives the
`ValueError` message and no thread. The concurrent run of the threads is not part of
this definition. -/
def log_message_mt (nthreads ntimes : Nat) (stream message : String) :
    Except String (List message_info_t) :=
  match log_message_mt_stream stream with
  | none =>
    .error ("parameter `stream' must be one of 'debug', 'info', 'warn' or 'error', not '" ++ stream ++ "'")
  | some s => .ok (log_message_mt_infos s message ntimes nthreads 0)

/-- A world to run the entry points in: the standard streams on two external
buffers, every buffer empty, threshold `DEBUG`, nothing sent yet. -/
def World.start : World :=
  { cout := .external 1, cerr := .external 2, text := fun _ => "", level := .DEBUG, sent := [] }

/-- The way `output_disable` sees a write to a channel: the statement
`channel << message << std::endl` either completes, giving the next world, or raises a
fault, leaving the world reached when it was raised. -/
abbrev Writer := Channel → String → World → Except World World

/-- The sink of the specification as a `Writer`: a write that never faults. -/
def sink : Writer := fun c message w => .ok (write c message w)

/-- The body of the `try` block of `output_disable` (lines 226 to 252), statement by
statement; `.error` is a fault raised by one of the writes, `.ok` carries the world
and the value of `success` at the end of the block. -/
def output_disable_try (wr : Writer) (w : World) : Except World (World × Bool) := do
  let success := true
  let w := log_level .DEBUG w
  let w ← wr .debug "This is a debug message" w
  let w ← wr .info "This is an info message" w
  let w ← wr .warn "This is a warning message" w
  let w ← wr .error "This is an error message" w
  let success := success && (w.text .out == "This is a debug message\nThis is an info message\n")
  let success := success && (w.text .err == "This is a warning message\nThis is an error message\n")
  let w := w.str .out ""
  let w := w.str .err ""
  let w := log_level .ERROR w
  let w ← wr .debug "This is a debug message" w
  let w ← wr .info "This is an info message" w
  let w ← wr .warn "This is a warning message" w
  let w ← wr .error "This is an error message" w
  let success := success && (w.text .out == "")
  let success := success && (w.text .err == "This is an error message\n")
  let w := w.str .out ""
  let w := w.str .err ""
  let w := log_level .DISABLE w
  let w ← wr .debug "This is a debug message" w
  let w ← wr .info "This is an info message" w
  let w ← wr .warn "This is a warning message" w
  let w ← wr .error "This is an error message" w
  let success := success && (w.text .out == "")
  let success := success && (w.text .err == "")
  return (w, success)

/-- The first statements of `output_disable` (lines 219 to 221): the two local string
streams start empty, and their buffers are installed in `std::cout` and `std::cerr`. -/
def output_disable_redirect (w : World) : World :=
  let w := (w.str .out "").str .err ""
  let w := { w with cout := .out }
  { w with cerr := .err }

/-- The self-check `output_disable` after argument parsing: redirect, run the `try`
block (a fault is caught and sets `success = false`), put the saved buffers back,
set the threshold to `DEBUG`, and return `success` as `Py_True` or `Py_False`. -/
def output_disable (wr : Writer) (w : World) : Bool × World :=
  let oldout := w.cout
  let olderr := w.cerr
  let w := output_disable_redirect w
  let r : Bool × World :=
    match output_disable_try wr w with
    | .ok (w, success) => (success, w)
    | .error w => (false, w)
  let success := r.1
  let w := r.2
  let w := { w with cout := oldout }
  let w := { w with cerr := olderr }
  let w := log_level .DEBUG w
  (success, w)

/-- The four writes of the literal scenarios, in order: debug, info, warn, error. -/
def four_writes (wr : Writer) (w : World) : Except World World := do
  let w ← wr .debug "This is a debug message" w
  let w ← wr .info "This is an info message" w
  let w ← wr .warn "This is a warning message" w
  wr .error "This is an error message" w

/-- The texts the self-check captures, as the specification describes them: at each
of the thresholds `DEBUG`, `ERROR`, `DISABLE` in turn the four writes are made and
the texts of device A (`out`) and device B (`err`) are read, the two buffers being
cleared between thresholds; `none` when a write faults. -/
def captured_texts (wr : Writer) (w : World) : Option (List String) :=
  match four_writes wr (log_level .DEBUG w) with
  | .error _ => none
  | .ok a =>
    match four_writes wr (log_level .ERROR ((a.str .out "").str .err "")) with
    | .error _ => none
    | .ok b =>
      match four_writes wr (log_level .DISABLE ((b.str .out "").str .err "")) with
      | .error _ => none
      | .ok c => some [a.text .out, a.text .err, b.text .out, b.text .err, c.text .out, c.text .err]

/-- The six texts `output_disable` compares the captured texts with. -/
def expected_texts : List String :=
  ["This is a debug message\nThis is an info message\n",
   "This is a warning message\nThis is an error message\n",
   "", "This is an error message\n", "", ""]

/-- A writer whose device fails on the warn channel: every write to `warn` raises a
fault, every other write is the sink's. -/
def faulty : Writer := fun c message w =>
  if c = .warn then .error w else .ok (write c message w)

/-- The text made of `n` copies of `line`, one after the other. -/
def copies : Nat → String → String
  | 0, _ => ""
  | n + 1, line => line ++ copies n line

/-! ## Theorems -/

/-- C1: for each of the three complex kinds and each of the twelve scalar kinds,
`cast<S, C>(x)` is the static conversion to `S` of `x.real()`, so two inputs with
the same real part are cast to the same value, whatever their imaginary parts. The
conversion is any function of the value converted, and "the same" is identity of
values. -/
theorem complex_to_regular_real_only {Val : Reg → Type} (sc : StaticCast Val)
    (C : Flt) (S : Reg) (x y : complex (Val C.reg)) (h : x.real = y.real) :
    COMPLEX_TO_REGULAR sc C S x = sc.conv C.reg S x.real ∧
    COMPLEX_TO_REGULAR sc C S x = COMPLEX_TO_REGULAR sc C S y := by
  refine ⟨rfl, ?_⟩
  unfold COMPLEX_TO_REGULAR
  rw [h]

/-- Witness of C1: `(300, 4)` and `(300, -7)` as `complex<double>` both cast to the
`int8_t` value `44`. -/
theorem complex_to_regular_real_only_witness :
    (complex.mk 300 4 : complex Int).real = (complex.mk 300 (-7) : complex Int).real ∧
    COMPLEX_TO_REGULAR intCast .double .int8_t (complex.mk 300 4) = 44 ∧
    COMPLEX_TO_REGULAR intCast .double .int8_t (complex.mk 300 4)
      = COMPLEX_TO_REGULAR intCast .double .int8_t (complex.mk 300 (-7)) :=
  ⟨rfl, by decide,
    (complex_to_regular_real_only intCast .double .int8_t
      (complex.mk 300 4) (complex.mk 300 (-7)) rfl).2⟩

/-- C2: for each of the nine pairs of complex kinds, `cast<C2, C1>(x)` is the complex
number whose real part is the scalar conversion of `x.real()` and whose imaginary
part is the scalar conversion of `x.imag()`, each to the floating width of `C2`. -/
theorem complex_to_complex_componentwise {Val : Reg → Type} (sc : StaticCast Val)
    (C1 C2 : Flt) (x : complex (Val C1.reg)) :
    COMPLEX_TO_COMPLEX sc C1 C2 x
      = { real := sc.conv C1.reg C2.reg x.real, imag := sc.conv C1.reg C2.reg x.imag } := by
  cases C1 <;> cases C2 <;>
    simp [COMPLEX_TO_COMPLEX, complex.convert, sc.conv_self]

/-! ### The stream names -/

theorem char_toNat_injective {a b : Char} (h : a.toNat = b.toNat) : a = b := by
  rw [← Char.ofNat_toNat a, ← Char.ofNat_toNat b, h]

/-- On a pattern `p` without NUL, `strncmp s p (length p)` is zero exactly when `s`
begins with `p`. -/
theorem strncmp_eq_zero_iff (p : List Char) (hp : ∀ c ∈ p, c ≠ Char.ofNat 0) (s : List Char) :
    strncmp s p p.length = 0 ↔ p <+: s := by
  induction p generalizing s with
  | nil => simp [strncmp]
  | cons a p ih =>
    have ha : a ≠ Char.ofNat 0 := hp a (List.mem_cons_self a p)
    have hp' : ∀ c ∈ p, c ≠ Char.ofNat 0 := fun c hc => hp c (List.mem_cons_of_mem a hc)
    cases s with
    | nil =>
      have : (Char.ofNat 0) ≠ a := fun h => ha h.symm
      simp only [List.length_cons, strncmp, List.headD_nil, List.headD_cons, ne_eq, this,
        not_false_eq_true, if_true, List.prefix_nil, reduceCtorEq, iff_false]
      intro h
      apply ha
      apply char_toNat_injective
      have : (a.toNat : Int) = ((Char.ofNat 0).toNat : Int) := by omega
      exact_mod_cast this
    | cons b s =>
      simp only [List.length_cons, strncmp, List.headD_cons, List.tail_cons, ne_eq]
      by_cases hba : b = a
      · subst hba
        simp [ha, ih hp' s, List.cons_prefix_cons]
      · have hne : ¬ a = b := fun h => hba h.symm
        simp only [hba, not_false_eq_true, if_true, List.cons_prefix_cons, hne, false_and,
          iff_false]
        intro h
        apply hba
        apply char_toNat_injective
        have : (b.toNat : Int) = (a.toNat : Int) := by omega
        exact_mod_cast this

theorem strncmp_debug (s : List Char) : strncmp s "debug".data 5 = 0 ↔ "debug".data <+: s :=
  strncmp_eq_zero_iff "debug".data (by decide) s

theorem strncmp_info (s : List Char) : strncmp s "info".data 4 = 0 ↔ "info".data <+: s :=
  strncmp_eq_zero_iff "info".data (by decide) s

theorem strncmp_warn (s : List Char) : strncmp s "warn".data 4 = 0 ↔ "warn".data <+: s :=
  strncmp_eq_zero_iff "warn".data (by decide) s

theorem strncmp_error (s : List Char) : strncmp s "error".data 5 = 0 ↔ "error".data <+: s :=
  strncmp_eq_zero_iff "error".data (by decide) s

theorem strncmp_fatal (s : List Char) : strncmp s "fatal".data 5 = 0 ↔ "fatal".data <+: s :=
  strncmp_eq_zero_iff "fatal".data (by decide) s

/-- Two patterns with different first characters are never both a beginning of the
same string. -/
theorem beginnings_exclusive {a b : Char} {p q s : List Char} (hab : a ≠ b)
    (h1 : (a :: p) <+: s) : ¬ (b :: q) <+: s := by
  cases s with
  | nil => simp at h1
  | cons c s =>
    rw [List.cons_prefix_cons] at h1 ⊢
    rintro ⟨h2, -⟩
    exact hab (h1.1.trans h2.symm)

/-- C10: in both entry points the stream name is resolved by prefix. A name that
begins with "debug", "info", "warn" or "error" selects that channel whatever follows,
a name that begins with "fatal" selects the error channel in `log_message`, and an
entry point rejects a name with a `ValueError` exactly when the name begins with none
of its prefixes. -/
theorem stream_resolved_by_beginning (stream message : String) (nthreads ntimes : Nat)
    (w : World) :
    ("debug".data <+: stream.data →
      log_message_stream stream = some .debug ∧ log_message_mt_stream stream = some .debug) ∧
    ("info".data <+: stream.data →
      log_message_stream stream = some .info ∧ log_message_mt_stream stream = some .info) ∧
    ("warn".data <+: stream.data →
      log_message_stream stream = some .warn ∧ log_message_mt_stream stream = some .warn) ∧
    ("error".data <+: stream.data →
      log_message_stream stream = some .error ∧ log_message_mt_stream stream = some .error) ∧
    ("fatal".data <+: stream.data → log_message_stream stream = some .error) ∧
    ((∃ msg, (log_message ntimes stream message w).1 = .ValueError msg) ↔
      ¬ "debug".data <+: stream.data ∧ ¬ "info".data <+: stream.data ∧
      ¬ "warn".data <+: stream.data ∧ ¬ "error".data <+: stream.data ∧
      ¬ "fatal".data <+: stream.data) ∧
    ((∃ msg, log_message_mt nthreads ntimes stream message = .error msg) ↔
      ¬ "debug".data <+: stream.data ∧ ¬ "info".data <+: stream.data ∧
      ¬ "warn".data <+: stream.data ∧ ¬ "error".data <+: stream.data) := by
  have hd := strncmp_debug stream.data
  have hi := strncmp_info stream.data
  have hw := strncmp_warn stream.data
  have he := strncmp_error stream.data
  have hf := strncmp_fatal stream.data
  have hdi : "debug".data <+: stream.data → ¬ "info".data <+: stream.data :=
    beginnings_exclusive (by decide)
  have hdw : "debug".data <+: stream.data → ¬ "warn".data <+: stream.data :=
    beginnings_exclusive (by decide)
  have hde : "debug".data <+: stream.data → ¬ "error".data <+: stream.data :=
    beginnings_exclusive (by decide)
  have hiw : "info".data <+: stream.data → ¬ "warn".data <+: stream.data :=
    beginnings_exclusive (by decide)
  have hie : "info".data <+: stream.data → ¬ "error".data <+: stream.data :=
    beginnings_exclusive (by decide)
  have hwe : "warn".data <+: stream.data → ¬ "error".data <+: stream.data :=
    beginnings_exclusive (by decide)
  refine ⟨?_, ?_, ?_, ?_, ?_, ?_, ?_⟩
  · intro h
    simp [log_message_stream, log_message_mt_stream, hd, h]
  · intro h
    have h1 : ¬ "debug".data <+: stream.data := fun h' => hdi h' h
    simp [log_message_stream, log_message_mt_stream, hd, hi, h, h1]
  · intro h
    have h1 : ¬ "debug".data <+: stream.data := fun h' => hdw h' h
    have h2 : ¬ "info".data <+: stream.data := fun h' => hiw h' h
    simp [log_message_stream, log_message_mt_stream, hd, hi, hw, h, h1, h2]
  · intro h
    have h1 : ¬ "debug".data <+: stream.data := fun h' => hde h' h
    have h2 : ¬ "info".data <+: stream.data := fun h' => hie h' h
    have h3 : ¬ "warn".data <+: stream.data := fun h' => hwe h' h
    simp [log_message_stream, log_message_mt_stream, hd, hi, hw, he, h, h1, h2, h3]
  · intro h
    have h1 : ¬ "debug".data <+: stream.data := fun h' =>
      beginnings_exclusive (p := "ebug".data) (q := "atal".data) (by decide) h' h
    have h2 : ¬ "info".data <+: stream.data := fun h' =>
      beginnings_exclusive (p := "nfo".data) (q := "atal".data) (by decide) h' h
    have h3 : ¬ "warn".data <+: stream.data := fun h' =>
      beginnings_exclusive (p := "arn".data) (q := "atal".data) (by decide) h' h
    have h4 : ¬ "error".data <+: stream.data := fun h' =>
      beginnings_exclusive (p := "rror".data) (q := "atal".data) (by decide) h' h
    simp [log_message_stream, hd, hi, hw, he, hf, h, h1, h2, h3, h4]
  · simp only [log_message, log_message_stream, log_message_inner, hd, hi, hw, he, hf]
    by_cases c1 : "debug".data <+: stream.data <;>
    by_cases c2 : "info".data <+: stream.data <;>
    by_cases c3 : "warn".data <+: stream.data <;>
    by_cases c4 : "error".data <+: stream.data <;>
    by_cases c5 : "fatal".data <+: stream.data <;>
    simp [c1, c2, c3, c4, c5]
  · simp only [log_message_mt, log_message_mt_stream, hd, hi, hw, he]
    by_cases c1 : "debug".data <+: stream.data <;>
    by_cases c2 : "info".data <+: stream.data <;>
    by_cases c3 : "warn".data <+: stream.data <;>
    by_cases c4 : "error".data <+: stream.data <;>
    simp [c1, c2, c3, c4]

/-- Witness of C10: "debugger", "information" and "warning" are resolved to the debug,
info and warn channels, and "trace" is rejected by both entry points. -/
theorem stream_resolved_by_beginning_witness :
    log_message_stream "debugger" = some .debug ∧
    log_message_mt_stream "information" = some .info ∧
    log_message_stream "warning" = some .warn ∧
    (∃ msg, (log_message 1 "trace" "m" World.start).1 = .ValueError msg) :=
  ⟨((stream_resolved_by_beginning "debugger" "m" 1 1 World.start).1 (by decide)).1,
   ((stream_resolved_by_beginning "information" "m" 1 1 World.start).2.1 (by decide)).2,
   ((stream_resolved_by_beginning "warning" "m" 1 1 World.start).2.2.1 (by decide)).1,
   (stream_resolved_by_beginning "trace" "m" 1 1 World.start).2.2.2.2.2.1.2 (by decide)⟩

/-- C6: in `log_message` the name "fatal" selects the error channel, so
`log_message(ntimes, "fatal", message)` does exactly what
`log_message(ntimes, "error", message)` does, while `log_message_mt` rejects "fatal"
with a `ValueError` and spawns no thread. -/
theorem fatal_is_error_in_log_message_only (nthreads ntimes : Nat) (message : String)
    (w : World) :
    log_message_stream "fatal" = some .error ∧
    log_message_stream "error" = some .error ∧
    log_message ntimes "fatal" message w = log_message ntimes "error" message w ∧
    log_message_mt nthreads ntimes "fatal" message
      = .error "parameter `stream' must be one of 'debug', 'info', 'warn' or 'error', not 'fatal'" := by
  have h1 : log_message_stream "fatal" = some .error := by decide
  have h2 : log_message_stream "error" = some .error := by decide
  have h3 : log_message_mt_stream "fatal" = none := by decide
  refine ⟨h1, h2, ?_, ?_⟩
  · simp only [log_message, h1, h2]
  · simp only [log_message_mt, h3]
    rfl

/-- C5, the code at the name "debugger": the name is outside both recognized sets, yet
`log_message` raises nothing and writes the message to the debug channel, and
`log_message_mt` hands one thread to `pthread_create`. -/
theorem unrecognized_name_accepted :
    "debugger" ∉ ["debug", "info", "warn", "error", "fatal"] ∧
    (log_message 1 "debugger" "m" World.start).1 = .None ∧
    (log_message 1 "debugger" "m" World.start).2.sent = [(.debug, "m\n")] ∧
    (log_message 1 "debugger" "m" World.start).2.text (.external 1) = "m\n" ∧
    log_message_mt 1 1 "debugger" "m"
      = .ok [{ s := .debug, message := "m", exit := true, ntimes := 1, thread_id := 1 }] := by
  refine ⟨by decide, by decide, by decide, by decide, ?_⟩
  rfl

/-! ### The sink -/

theorem write_cout (c : Channel) (m : String) (w : World) : (write c m w).cout = w.cout := by
  by_cases h : c.active w.level = true <;> simp [write, h, World.str]

theorem write_cerr (c : Channel) (m : String) (w : World) : (write c m w).cerr = w.cerr := by
  by_cases h : c.active w.level = true <;> simp [write, h, World.str]

theorem write_level (c : Channel) (m : String) (w : World) :
    (write c m w).level = w.level := by
  by_cases h : c.active w.level = true <;> simp [write, h, World.str]

theorem write_sent (c : Channel) (m : String) (w : World) :
    (write c m w).sent = w.sent ++ [(c, m ++ "\n")] := by
  by_cases h : c.active w.level = true <;> simp [write, h, World.str]

theorem write_device (c c' : Channel) (m : String) (w : World) :
    (write c m w).device c' = w.device c' := by
  simp only [World.device, World.rdbuf, write_cout, write_cerr]

/-- The text of every buffer after a write: the line is appended to the device of the
channel when the channel is active, and nothing else changes. -/
theorem write_text (c : Channel) (m : String) (w : World) (b : StreamBuf) :
    (write c m w).text b
      = if b = w.device c ∧ c.active w.level = true then w.text b ++ (m ++ "\n")
        else w.text b := by
  have hr : ∀ (l : List (Channel × String)) (s : StdStream),
      World.rdbuf { w with sent := l } s = w.rdbuf s := by
    intro l s
    cases s <;> rfl
  by_cases h : c.active w.level = true
  · by_cases hb : b = w.device c
    · subst hb
      simp [write, h, World.str, World.device, hr]
    · have hb' : ¬ b = w.rdbuf c.stream := hb
      simp [write, h, hb, hb', World.str, World.device, hr]
  · simp [write, h]

/-! ### The write loop -/

theorem log_message_text_eq (mi : message_info_t) (i : Nat) :
    log_message_text mi i = mi.message := by
  simp [log_message_text, PYTHON_LOGGING_DEBUG]

/-- What the write loop leaves: the standard streams and the threshold as they were,
`n` more lines sent to the channel, and `n` lines appended to its device when the
channel is active. -/
theorem log_message_loop_spec (mi : message_info_t) (n i : Nat) (w : World) :
    (log_message_loop mi n i w).cout = w.cout ∧
    (log_message_loop mi n i w).cerr = w.cerr ∧
    (log_message_loop mi n i w).level = w.level ∧
    (log_message_loop mi n i w).sent
      = w.sent ++ List.replicate n (mi.s, mi.message ++ "\n") ∧
    ∀ b, (log_message_loop mi n i w).text b
      = if b = w.device mi.s ∧ mi.s.active w.level = true
        then w.text b ++ copies n (mi.message ++ "\n") else w.text b := by
  induction n generalizing i w with
  | zero => simp [log_message_loop, copies]
  | succ n ih =>
    obtain ⟨h1, h2, h3, h4, h5⟩ := ih (i + 1) (write mi.s (log_message_text mi i) w)
    rw [log_message_text_eq] at h1 h2 h3 h4 h5
    refine ⟨?_, ?_, ?_, ?_, ?_⟩
    · simp only [log_message_loop, log_message_text_eq, h1, write_cout]
    · simp only [log_message_loop, log_message_text_eq, h2, write_cerr]
    · simp only [log_message_loop, log_message_text_eq, h3, write_level]
    · simp only [log_message_loop, log_message_text_eq, h4, write_sent, List.replicate_succ,
        List.append_assoc, List.singleton_append]
    · intro b
      simp only [log_message_loop, log_message_text_eq, h5 b, write_text, write_device,
        write_level]
      by_cases hc : b = w.device mi.s ∧ mi.s.active w.level = true
      · simp only [hc, and_self, if_true, copies, String.append_assoc]
      · simp only [hc, if_false]

/-- C3: a write of `m` to channel `c` after `set_level(t)` appends exactly `m` followed
by one line terminator to the device of `c` when the severity of `c` is at least `t`
and `t` is not `DISABLE`, and leaves that device as it was otherwise; no other device
changes. At `DEBUG` all four channels are active, at `ERROR` only the error channel
is, and at `DISABLE` none is. -/
theorem write_after_log_level (t : LOG_LEVELS) (c : Channel) (m : String) (w : World) :
    (write c m (log_level t w)).text (w.device c)
      = (if t.rank ≤ c.severity.rank ∧ t ≠ .DISABLE then w.text (w.device c) ++ (m ++ "\n")
         else w.text (w.device c)) ∧
    (∀ b, b ≠ w.device c → (write c m (log_level t w)).text b = w.text b) ∧
    (∀ c' : Channel, c'.active .DEBUG = true) ∧
    (∀ c' : Channel, c'.active .ERROR = true ↔ c' = .error) ∧
    (∀ c' : Channel, c'.active .DISABLE = false) := by
  have hd : (log_level t w).device c = w.device c := rfl
  have ht : ∀ b, (log_level t w).text b = w.text b := fun _ => rfl
  have hl : (log_level t w).level = t := rfl
  refine ⟨?_, ?_, ?_, ?_, ?_⟩
  · rw [write_text, hd, ht, hl]
    by_cases h : t.rank ≤ c.severity.rank ∧ t ≠ .DISABLE
    · have ha : c.active t = true := by
        simp [Channel.active, h.1, h.2]
      simp [h, ha]
    · have ha : ¬ c.active t = true := by
        intro ha
        apply h
        simpa [Channel.active] using ha
      simp [h, ha]
  · intro b hb
    rw [write_text, hd, ht]
    simp [hb]
  · intro c'
    cases c' <;> rfl
  · intro c'
    cases c' <;> decide
  · intro c'
    cases c' <;> rfl

/-- C7: for each of the five recognized names, `log_message(ntimes, name, message)`
returns `None` to its caller, sends the line `message` plus terminator `ntimes` times
to the named channel and to no other, appends `ntimes` copies of that line to the
channel's device when the channel is active (nothing when it is not, or when
`ntimes` is zero), and changes no other buffer, stream binding or threshold. -/
theorem log_message_writes_ntimes (ntimes : Nat) (stream message : String) (c : Channel)
    (w : World)
    (h : (stream, c) ∈ [("debug", Channel.debug), ("info", Channel.info),
      ("warn", Channel.warn), ("error", Channel.error), ("fatal", Channel.error)]) :
    (log_message ntimes stream message w).1 = .None ∧
    (log_message ntimes stream message w).2.sent
      = w.sent ++ List.replicate ntimes (c, message ++ "\n") ∧
    (log_message ntimes stream message w).2.text (w.device c)
      = (if c.active w.level = true
         then w.text (w.device c) ++ copies ntimes (message ++ "\n")
         else w.text (w.device c)) ∧
    (∀ b, b ≠ w.device c → (log_message ntimes stream message w).2.text b = w.text b) ∧
    (log_message ntimes stream message w).2.cout = w.cout ∧
    (log_message ntimes stream message w).2.cerr = w.cerr ∧
    (log_message ntimes stream message w).2.level = w.level ∧
    (ntimes = 0 → ∀ b, (log_message ntimes stream message w).2.text b = w.text b) := by
  have hs : log_message_stream stream = some c := by
    simp only [List.mem_cons, Prod.mk.injEq, List.mem_singleton, List.mem_nil_iff,
      or_false] at h
    rcases h with ⟨rfl, rfl⟩ | ⟨rfl, rfl⟩ | ⟨rfl, rfl⟩ | ⟨rfl, rfl⟩ | ⟨rfl, rfl⟩ <;> decide
  obtain ⟨h1, h2, h3, h4, h5⟩ := log_message_loop_spec
    { s := c, message := message, exit := false, ntimes := ntimes, thread_id := 0 } ntimes 0 w
  have hr : log_message ntimes stream message w
      = (.None, log_message_loop
          { s := c, message := message, exit := false, ntimes := ntimes, thread_id := 0 }
          ntimes 0 w) := by
    simp [log_message, hs, log_message_inner]
  rw [hr]
  refine ⟨rfl, h4, ?_, ?_, h1, h2, h3, ?_⟩
  · rw [h5]
    by_cases ha : c.active w.level = true <;> simp [ha]
  · intro b hb
    rw [h5]
    simp [hb]
  · intro h0 b
    subst h0
    rw [h5]
    simp [copies]

/-- Witness of C7: two writes of "m" through the name "fatal" at threshold `DEBUG` put
"m\nm\n" on the device of the error channel and return `None`. -/
theorem log_message_writes_ntimes_witness :
    (("fatal", Channel.error) ∈ [("debug", Channel.debug), ("info", Channel.info),
      ("warn", Channel.warn), ("error", Channel.error), ("fatal", Channel.error)]) ∧
    (log_message 2 "fatal" "m" World.start).1 = .None ∧
    (log_message 2 "fatal" "m" World.start).2.sent
      = [(Channel.error, "m\n"), (Channel.error, "m\n")] ∧
    (log_message 2 "fatal" "m" World.start).2.text (.external 2) = "m\nm\n" :=
  ⟨by decide,
   (log_message_writes_ntimes 2 "fatal" "m" .error World.start (by decide)).1,
   (log_message_writes_ntimes 2 "fatal" "m" .error World.start (by decide)).2.1,
   (log_message_writes_ntimes 2 "fatal" "m" .error World.start (by decide)).2.2.1⟩

/-! ### The self-check -/

/-- The `try` block passes exactly when no write faults and the six captured texts are
the expected ones; when a write faults nothing is captured. -/
theorem output_disable_try_spec (wr : Writer) (w : World) :
    (∃ p, output_disable_try wr w = .ok p ∧
      (p.2 = true ↔ captured_texts wr w = some expected_texts)) ∨
    ((∃ e, output_disable_try wr w = .error e) ∧ captured_texts wr w = none) := by
  unfold output_disable_try captured_texts four_writes
  simp only [bind, Except.bind, pure, Except.pure]
  repeat' split
  all_goals simp_all [expected_texts, and_assoc]

/-- C4: in the self-check, with debug and info on device A (`out`) and warn and error
on device B (`err`), the four writes leave A = "This is a debug message\nThis is an info
message\n" and B = "This is a warning message\nThis is an error message\n" at `DEBUG`,
A = "" and B = "This is an error message\n" at `ERROR`, and A = "" and B = "" at
`DISABLE`, the buffers being cleared in between; the self-check passes exactly when the
six captured texts are these, so with the sink of the specification it passes. -/
theorem output_disable_literal_scenarios (wr : Writer) (w : World) :
    captured_texts sink (output_disable_redirect w)
      = some ["This is a debug message\nThis is an info message\n",
              "This is a warning message\nThis is an error message\n",
              "", "This is an error message\n", "", ""] ∧
    ((output_disable wr w).1 = true ↔
      captured_texts wr (output_disable_redirect w) = some expected_texts) ∧
    (output_disable sink w).1 = true := by
  have hc : captured_texts sink (output_disable_redirect w) = some expected_texts := rfl
  have hiff : ∀ wr' : Writer, (output_disable wr' w).1 = true ↔
      captured_texts wr' (output_disable_redirect w) = some expected_texts := by
    intro wr'
    rcases output_disable_try_spec wr' (output_disable_redirect w) with
      ⟨p, hp, hpe⟩ | ⟨⟨e, he⟩, hn⟩
    · simp only [output_disable, hp]
      exact hpe
    · simp only [output_disable, he, hn]
      simp
  exact ⟨hc, hiff wr, (hiff sink).2 hc⟩

/-- C9: on every path through `output_disable`, the path on which a write faults
included, `std::cout` and `std::cerr` get back the buffers they had before the call
and the threshold is left at `DEBUG`, whatever it was; a fault is not propagated but
turned into the result `false`. -/
theorem output_disable_restores (wr : Writer) (w : World) :
    (output_disable wr w).2.cout = w.cout ∧
    (output_disable wr w).2.cerr = w.cerr ∧
    (output_disable wr w).2.level = .DEBUG ∧
    (∀ e, output_disable_try wr (output_disable_redirect w) = .error e →
      (output_disable wr w).1 = false) := by
  refine ⟨rfl, rfl, rfl, ?_⟩
  intro e he
  simp only [output_disable, he]

/-- Witness of C9: with a device that fails on the warn channel and the threshold at
`ERROR` before the call, the `try` block ends in a fault, the result is `false`, the
standard streams are back on their buffers and the threshold is `DEBUG`. -/
theorem output_disable_restores_witness :
    (∃ e, output_disable_try faulty
      (output_disable_redirect (log_level .ERROR World.start)) = .error e) ∧
    (output_disable faulty (log_level .ERROR World.start)).1 = false ∧
    (output_disable faulty (log_level .ERROR World.start)).2.cout = .external 1 ∧
    (output_disable faulty (log_level .ERROR World.start)).2.cerr = .external 2 ∧
    (output_disable faulty (log_level .ERROR World.start)).2.level = .DEBUG :=
  ⟨⟨_, rfl⟩,
   (output_disable_restores faulty (log_level .ERROR World.start)).2.2.2 _ rfl,
   (output_disable_restores faulty (log_level .ERROR World.start)).1,
   (output_disable_restores faulty (log_level .ERROR World.start)).2.1,
   (output_disable_restores faulty (log_level .ERROR World.start)).2.2.1⟩

end bob.core
